import Mathlib

/-!
Shallow embedding of the download pipeline of the exercism CLI
(src/cmd/cmd.go and the second pipeline in src/unnamed/part_000).

Strings are Lean `String`s; Go `filepath` operations are modelled for a
POSIX host (separator '/'), where `filepath.FromSlash` is the identity.
Network and filesystem effects are modelled by explicit oracles passed in
as arguments; each definition carries a note where an external collaborator
(api.NewClient, client.Do, the workspace package) is abstracted.
-/

namespace Exercism

/-- Go `filepath.Join` on a POSIX host: empty elements are dropped and the
remaining elements are joined with '/'.  The final `filepath.Clean` pass is
not modelled: the components joined in this code base are a workspace path
and plain slugs/handles/relative file paths, which `Clean` leaves unchanged
(no "." / ".." segments, no duplicated separators). -/
def goJoin (elems : List String) : String :=
  match elems.filter (fun s => s ≠ "") with
  | [] => ""
  | e :: es => es.foldl (fun acc s => acc ++ "/" ++ s) e

/-! ### Legacy path sanitization (src/cmd/cmd.go, sanitizeLegacyNumericSuffixFilepath)

The Go code builds the regular expression `\A.*[/\\]{slug}-\d*/` from the
exercise slug (the slugs involved are plain words, so the slug is a literal
in the pattern), tests the filename against it and, on a match, deletes the
matched prefix (`ReplaceAll` with the empty string; the `\A` anchor allows at
most one, prefix, match).  Go's regexp engine picks the leftmost-first match:
the greedy `.*` consumes as many characters (any character except a newline)
as possible, then backtracks.  The functions below implement exactly this
pattern's matching, trying the longest `.*` prefix first. -/

/-- Match the literal characters `slug` at the head of `l`, returning the rest. -/
def stripHead : List Char → List Char → Option (List Char)
  | [], l => some l
  | _ :: _, [] => none
  | p :: ps, c :: cs => if p = c then stripHead ps cs else none

/-- Match `\d*/` at the head of the list (greedy digits, then a '/'),
returning what follows the '/'.  Since '/' is not a digit, the greedy run of
digits is exactly the maximal digit run, which must be followed by '/'. -/
def digitsThenSlash : List Char → Option (List Char)
  | [] => none
  | c :: cs =>
    if c = '/' then some cs
    else if c.isDigit then digitsThenSlash cs
    else none

/-- Match `{slug}-\d*/` at the head of the list, returning the rest. -/
def slugNumSegment (slug : List Char) (l : List Char) : Option (List Char) :=
  match stripHead slug l with
  | some ('-' :: l2) => digitsThenSlash l2
  | _ => none

/-- Match `[/\\]{slug}-\d*/` at the head of the list, returning the rest. -/
def sepSlugNum (slug : List Char) : List Char → Option (List Char)
  | [] => none
  | c :: cs => if c = '/' ∨ c = '\\' then slugNumSegment slug cs else none

/-- Match `\A.*[/\\]{slug}-\d*/` against the whole list: the greedy `.*`
(`.` matches anything but a newline) prefers the longest prefix, so deeper
match positions are tried first.  Returns the suffix left after deleting the
matched prefix, or `none` when the pattern does not match. -/
def greedyStrip (slug : List Char) : List Char → Option (List Char)
  | [] => none
  | c :: cs =>
    match (if c = '\n' then none else greedyStrip slug cs) with
    | some r => some r
    | none => sepSlugNum slug (c :: cs)

/-- src/cmd/cmd.go sanitizeLegacyNumericSuffixFilepath: strip a prefix
matching `\A.*[/\\]{slug}-\d*/` if present, then replace every backslash by a
forward slash (`strings.Replace(file, "\\", "/", -1)`); the final
`filepath.FromSlash` is the identity on a POSIX host. -/
def sanitizeLegacyNumericSuffixFilepath (file slug : String) : String :=
  let stripped :=
    match greedyStrip slug.data file.data with
    | some rest => rest
    | none => file.data
  ⟨stripped.map fun c => if c = '\\' then '/' else c⟩

/-! ### Data model (src/cmd/cmd.go downloadPayload, identical in src/unnamed/part_000) -/

/-- The `Team` field of `downloadPayload.Solution`. -/
structure SolutionTeam where
  name : String
  slug : String
deriving DecidableEq, Repr

/-- The `User` field of `downloadPayload.Solution`. -/
structure SolutionUser where
  handle : String
  isRequester : Bool
deriving DecidableEq, Repr

/-- The `Track` field of `downloadPayload.Solution.Exercise`. -/
structure TrackInfo where
  id : String
  language : String
deriving DecidableEq, Repr

/-- The `Exercise` field of `downloadPayload.Solution`. -/
structure SolutionExercise where
  id : String
  instructionsURL : String
  autoApprove : Bool
  track : TrackInfo
deriving DecidableEq, Repr

/-- The `Solution` field of `downloadPayload` (the `Iteration` field is
never read by the pipeline and is omitted). -/
structure Solution where
  id : String
  url : String
  team : SolutionTeam
  user : SolutionUser
  exercise : SolutionExercise
  fileDownloadBaseURL : String
  files : List String
deriving DecidableEq, Repr

/-- The `Error` field of `downloadPayload`. -/
structure ErrorInfo where
  type : String
  message : String
  possibleTrackIDs : List String
deriving DecidableEq, Repr

/-- src/cmd/cmd.go downloadPayload: the decoded Exercism API response. -/
structure downloadPayload where
  solution : Solution
  error : ErrorInfo
deriving DecidableEq, Repr

/-! ### downloadParams and its validation (src/cmd/cmd.go, struct pipeline) -/

/-- src/cmd/cmd.go downloadParams. -/
structure downloadParams where
  slug : String
  uuid : String
  token : String
  apibaseurl : String
  workspace : String
  track : String
  team : String
  fromExercise : Bool
  fromFlags : Bool
deriving DecidableEq, Repr

/-- src/cmd/cmd.go downloadParamsValidator.needsSlugXorUUID: errors when
`d.slug != "" && d.uuid != "" || d.uuid == d.slug` (Go precedence: the
conjunction binds tighter). -/
def needsSlugXorUUID (d : downloadParams) : Except String Unit :=
  if (d.slug ≠ "" ∧ d.uuid ≠ "") ∨ d.uuid = d.slug then
    if d.fromFlags then Except.error "need an --exercise name or a solution --uuid"
    else Except.error "need a 'slug' or a 'uuid'"
  else Except.ok ()

/-- src/cmd/cmd.go downloadParamsValidator.needsUserConfigValues. -/
def needsUserConfigValues (d : downloadParams) : Except String Unit :=
  if d.token = "" then Except.error "missing required user config: 'token'"
  else if d.apibaseurl = "" then Except.error "missing required user config: 'apibaseurl'"
  else if d.workspace = "" then Except.error "missing required user config: 'workspace'"
  else Except.ok ()

/-- src/cmd/cmd.go downloadParamsValidator.needsSlugWhenGivenTrackOrTeam. -/
def needsSlugWhenGivenTrackOrTeam (d : downloadParams) : Except String Unit :=
  if d.fromFlags ∧ ((d.team ≠ "" ∨ d.track ≠ "") ∧ d.slug = "") then
    Except.error "--team or --track requires --exercise (not --uuid)"
  else Except.ok ()

/-- src/cmd/cmd.go downloadParams.validate: the three rules in source order,
first failure wins. -/
def downloadParams.validate (d : downloadParams) : Except String Unit :=
  match needsSlugXorUUID d with
  | Except.error e => Except.error e
  | Except.ok () =>
    match needsUserConfigValues d with
    | Except.error e => Except.error e
    | Except.ok () => needsSlugWhenGivenTrackOrTeam d

/-! ### The download value and its request construction (struct pipeline) -/

/-- src/cmd/cmd.go download: params together with the decoded payload (the
embedded downloadWriter holds no data of its own). -/
structure download where
  params : downloadParams
  payload : downloadPayload
deriving DecidableEq, Repr

/-- src/cmd/cmd.go (*download).requestURL. -/
def download.requestURL (d : download) : String :=
  let id := if d.params.uuid ≠ "" then d.params.uuid else "latest"
  d.params.apibaseurl ++ "/solutions/" ++ id

/-- src/cmd/cmd.go (*download).buildQuery: the query parameters added to the
request URL, as (key, value) pairs in the order the code adds them. -/
def download.buildQuery (d : download) : List (String × String) :=
  if d.params.slug ≠ "" then
    ("exercise_id", d.params.slug) ::
      ((if d.params.track ≠ "" then [("track_id", d.params.track)] else []) ++
       (if d.params.team ≠ "" then [("team_id", d.params.team)] else []))
  else []

/-! ### The flat pipeline (src/unnamed/part_000) -/

/-- The user-config values read from `cfg.UserViperConfig` by the flat
pipeline. -/
structure flatConfig where
  token : String
  apibaseurl : String
  workspace : String
deriving DecidableEq, Repr

/-- src/unnamed/part_000 downloadParams (flat pipeline): the identifier
fields; the config travels separately as `flatConfig`. -/
structure flatDownloadParams where
  uuid : String
  slug : String
  track : String
  team : String
  urlParam : String
deriving DecidableEq, Repr

/-- src/unnamed/part_000 getDownloadPayload: the request URL,
`{apibaseurl}/solutions/{urlParam}`. -/
def flatRequestURL (cfg : flatConfig) (p : flatDownloadParams) : String :=
  cfg.apibaseurl ++ "/solutions/" ++ p.urlParam

/-- src/unnamed/part_000 getDownloadPayload: the query parameters, added only
when `params.uuid == ""` (note: `exercise_id` is added unconditionally inside
that branch, even for an empty slug). -/
def flatBuildQuery (p : flatDownloadParams) : List (String × String) :=
  if p.uuid = "" then
    ("exercise_id", p.slug) ::
      ((if p.track ≠ "" then [("track_id", p.track)] else []) ++
       (if p.team ≠ "" then [("team_id", p.team)] else []))
  else []

/-- Modelled from the spec: the caller that fills `downloadParams.urlParam`
for `getDownloadPayload` (the download command body) is not under src/; per
the spec, the request target uses `"latest"` when uuid is empty, else the
uuid. -/
def urlParamFor (uuid : String) : String :=
  if uuid = "" then "latest" else uuid

/-! ### Destination path resolution (src/cmd/cmd.go solutionRoot / exercise) -/

/-- src/cmd/cmd.go (*download).isTeamSolution. -/
def download.isTeamSolution (d : download) : Bool :=
  d.payload.solution.team.slug ≠ ""

/-- src/cmd/cmd.go (*download).solutionBelongsToOtherUser. -/
def download.solutionBelongsToOtherUser (d : download) : Bool :=
  !d.payload.solution.user.isRequester

/-- src/cmd/cmd.go (*download).solutionRoot: start from the workspace, append
`teams/{team slug}` for a team solution and `users/{handle}` for a solution
owned by another user. -/
def download.solutionRoot (d : download) : String :=
  let root := d.params.workspace
  let root :=
    if d.isTeamSolution then goJoin [root, "teams", d.payload.solution.team.slug]
    else root
  if d.solutionBelongsToOtherUser then goJoin [root, "users", d.payload.solution.user.handle]
  else root

/-- ws.Exercise: the fields of the workspace collaborator's Exercise value
that this pipeline sets and reads. -/
structure wsExercise where
  root : String
  track : String
  slug : String
deriving DecidableEq, Repr

/-- src/cmd/cmd.go (*download).exercise. -/
def download.exercise (d : download) : wsExercise :=
  { root := d.solutionRoot
    track := d.payload.solution.exercise.track.id
    slug := d.payload.solution.exercise.id }

/-- Modelled from the spec: `ws.Exercise.MetadataDir` belongs to the
workspace collaborator, which is not under src/; the spec places writes under
`{workspace}[/teams/{team}][/users/{handle}]/{track}/{slug}/...`, so the
exercise directory is root/track/slug. -/
def wsExercise.metadataDir (e : wsExercise) : String :=
  goJoin [e.root, e.track, e.slug]

/-- src/cmd/cmd.go (downloadWriter).destination. -/
def download.destination (d : download) : String :=
  d.exercise.metadataDir

/-! ### Payload validation and HTTP status resolution (src/cmd/cmd.go) -/

/-- src/cmd/cmd.go (*download).validate: requires a solution ID and no error
message. -/
def downloadPayload.validate (p : downloadPayload) : Except String Unit :=
  if p.solution.id = "" then Except.error "download missing an ID"
  else if p.error.message ≠ "" then Except.error p.error.message
  else Except.ok ()

/-- strings.Join with separator ", ". -/
def joinComma : List String → String
  | [] => ""
  | [s] => s
  | s :: rest => s ++ ", " ++ joinComma rest

/-- External collaborator config.InferSiteURL (not under src/): derives the
human-facing site URL from the API base URL.  Its value never influences the
claims below, only the shape of the 401 message; it is modelled as the
identity. -/
def inferSiteURL (apibaseurl : String) : String := apibaseurl

/-- src/cmd/cmd.go newDownload, tail after the JSON body has been decoded:
401 handling, the non-200 `Error.Type` branch, and on 200 the payload
validation (`return d, d.validate()`: a non-nil error from validate is the
failure the caller sees, modelled as `Except.error`). -/
def resolveStatus (p : downloadParams) (payload : downloadPayload)
    (statusCode : Nat) : Except String download :=
  if statusCode = 401 then
    Except.error ("unauthorized request. Please run the configure command. You can find your API token at "
      ++ inferSiteURL p.apibaseurl ++ "/my/settings")
  else if statusCode ≠ 200 then
    if payload.error.type = "track_ambiguous" then
      Except.error (payload.error.message ++ ": " ++ joinComma payload.error.possibleTrackIDs)
    else Except.error payload.error.message
  else
    match payload.validate with
    | Except.error e => Except.error e
    | Except.ok () => Except.ok { params := p, payload := payload }

/-! ### newDownload with an explicit network trace (src/cmd/cmd.go newDownload)

The HTTP transport (api.NewClient, client.NewRequest, client.Do and the JSON
decoder) is an external collaborator; its outcomes are supplied by a
`payloadOracle` and every collaborator call performed is recorded, in order,
in a trace of `netEvent`s. -/

/-- One call to the transport collaborator. -/
inductive netEvent where
  | newClient
  | newRequest
  | doRequest
deriving DecidableEq, Repr

/-- The outcome of the solution-lookup response: its status code and the
result of decoding its JSON body. -/
structure payloadResponse where
  statusCode : Nat
  decoded : Except String downloadPayload
deriving Repr

/-- Outcomes of the transport collaborator's calls during newDownload. -/
structure payloadOracle where
  clientResult : Except String Unit
  requestResult : Except String Unit
  doResult : Except String payloadResponse
deriving Repr

/-- src/cmd/cmd.go newDownload: validate the params, then create the client,
build the request (buildQuery mutates only the request's own URL), perform
it and decode/resolve the response.  Returns the outcome together with the
trace of collaborator calls made. -/
def newDownload (p : downloadParams) (net : payloadOracle) :
    Except String download × List netEvent :=
  match p.validate with
  | Except.error e => (Except.error e, [])
  | Except.ok () =>
    match net.clientResult with
    | Except.error e => (Except.error e, [netEvent.newClient])
    | Except.ok () =>
      match net.requestResult with
      | Except.error e => (Except.error e, [netEvent.newClient, netEvent.newRequest])
      | Except.ok () =>
        match net.doResult with
        | Except.error e =>
          (Except.error e, [netEvent.newClient, netEvent.newRequest, netEvent.doRequest])
        | Except.ok res =>
          let trace := [netEvent.newClient, netEvent.newRequest, netEvent.doRequest]
          match res.decoded with
          | Except.error e => (Except.error ("unable to parse API response - " ++ e), trace)
          | Except.ok payload => (resolveStatus p payload res.statusCode, trace)

/-! ### Per-file download (src/cmd/cmd.go requestFile, writeSolutionFiles)

Each per-file collaborator call's outcome is supplied by a `fileOracle`:
URL parsing (netURL.ParseRequestURI), client construction (api.NewClient),
request construction (client.NewRequest) and the request itself (client.Do).
Filesystem writes (os.MkdirAll, os.Create, io.Copy) are modelled as
error-free: their failures are environment errors that abort the loop the
same way a transport error does and play no part in the claims below. -/

/-- A per-file HTTP response: status code, the `Content-Length` header value
(`""` when absent) and the body. -/
structure fileResponse where
  statusCode : Nat
  contentLength : String
  body : String
deriving DecidableEq, Repr

/-- Outcomes of the collaborator calls for one file download. -/
structure fileOracle where
  parsedURLOk : Except String Unit
  clientResult : Except String Unit
  requestResult : Except String Unit
  doResult : Except String fileResponse
deriving Repr

/-- src/cmd/cmd.go (*download).requestFile: parse the URL, build the client
and the request, perform it; non-200 responses and responses with
`Content-Length: "0"` are swallowed, returning `none` with no error.
Note: the code assigns api.NewClient's error to `err` and immediately
overwrites `err` with client.NewRequest's result without checking it
(src/cmd/cmd.go lines 201-204), so `clientResult` is bound and then ignored,
exactly as in the source. -/
def requestFile (o : fileOracle) : Except String (Option fileResponse) :=
  match o.parsedURLOk with
  | Except.error e => Except.error e
  | Except.ok () =>
    let _discardedClientErr := o.clientResult
    match o.requestResult with
    | Except.error e => Except.error e
    | Except.ok () =>
      match o.doResult with
      | Except.error e => Except.error e
      | Except.ok res =>
        if res.statusCode ≠ 200 then Except.ok none
        else if res.contentLength = "0" then Except.ok none
        else Except.ok (some res)

/-- The loop body of src/cmd/cmd.go (downloadWriter).writeSolutionFiles over
the remaining filenames.  Returns the files written so far as
(absolute path, contents) pairs in write order, together with the error, if
any, that aborted the loop (writes made before the abort persist; a `none`
from requestFile skips the file and continues). -/
def writeLoop (d : download) (net : String → fileOracle) :
    List String → List (String × String) × Option String
  | [] => ([], none)
  | filename :: rest =>
    match requestFile (net filename) with
    | Except.error e => ([], some e)
    | Except.ok none => writeLoop d net rest
    | Except.ok (some res) =>
      let sanitizedPath := sanitizeLegacyNumericSuffixFilepath filename d.exercise.slug
      let fileWritePath := goJoin [d.destination, sanitizedPath]
      let result := writeLoop d net rest
      ((fileWritePath, res.body) :: result.1, result.2)

/-- src/cmd/cmd.go (downloadWriter).writeSolutionFiles: refuse outright when
the params came from an existing local exercise, otherwise fetch and write
each solution file sequentially. -/
def writeSolutionFiles (d : download) (net : String → fileOracle) :
    List (String × String) × Option String :=
  if d.params.fromExercise then
    ([], some "existing exercise files should not be overwritten")
  else writeLoop d net d.payload.solution.files

/-! ### Shared helper lemmas and example values -/

/-- `goJoin` of three non-empty components is slash-separated concatenation. -/
theorem goJoin3_eq (a b c : String) (ha : a ≠ "") (hb : b ≠ "") (hc : c ≠ "") :
    goJoin [a, b, c] = a ++ "/" ++ b ++ "/" ++ c := by
  simp [goJoin, List.filter, ha, hb, hc]

/-- A payload value used to instantiate witnesses (the fields irrelevant to
each witness are defaults). -/
def payloadEx : downloadPayload :=
  { solution :=
      { id := "sid42"
        url := "https://exercism.io/solutions/sid42"
        team := { name := "", slug := "" }
        user := { handle := "bob", isRequester := true }
        exercise :=
          { id := "exercise"
            instructionsURL := ""
            autoApprove := false
            track := { id := "go", language := "Go" } }
        fileDownloadBaseURL := "https://files.example.com/"
        files := [] }
    error := { type := "", message := "", possibleTrackIDs := [] } }

/-! ### Claims -/

/-- C1 counterexample: on the code, sanitizing `"exercise-2/foo/bar.rb"` with
slug `"exercise"` does NOT give `"foo/bar.rb"`: the pattern
`\A.*[/\\]exercise-\d*/` requires a path separator before the
`exercise-<digits>/` segment, and none precedes it here. -/
theorem C1_counterexample :
    sanitizeLegacyNumericSuffixFilepath "exercise-2/foo/bar.rb" "exercise" ≠ "foo/bar.rb" := by
  decide

/-- C1 (amended): for the filename `"exercise-2/foo/bar.rb"` and slug
`"exercise"` the legacy sanitization returns the path unchanged, because
the strip applies only when a path separator precedes the
`{slug}-<digits>/` segment; on `"a/exercise-2/foo/bar.rb"` it does strip,
yielding `"foo/bar.rb"`. -/
theorem C1_sanitize_amended :
    sanitizeLegacyNumericSuffixFilepath "exercise-2/foo/bar.rb" "exercise"
        = "exercise-2/foo/bar.rb"
    ∧ sanitizeLegacyNumericSuffixFilepath "a/exercise-2/foo/bar.rb" "exercise"
        = "foo/bar.rb" := by
  exact ⟨by decide, by decide⟩

/-- C2: under the validated invariant (exactly one of slug/uuid non-empty),
the struct-composition pipeline's request construction (requestURL and
buildQuery) and the flat-parameter pipeline's request construction
(getDownloadPayload with urlParam per the spec) produce the same request URL
and the same query-parameter list. -/
theorem C2_pipelines_equivalent (cfg : flatConfig) (pay : downloadPayload)
    (slug uuid track team tok ws : String) (fe ff : Bool)
    (h : (slug ≠ "" ∧ uuid = "") ∨ (slug = "" ∧ uuid ≠ "")) :
    download.requestURL
        { params := { slug := slug, uuid := uuid, token := tok,
                      apibaseurl := cfg.apibaseurl, workspace := ws,
                      track := track, team := team,
                      fromExercise := fe, fromFlags := ff }
          payload := pay }
      = flatRequestURL cfg
          { uuid := uuid, slug := slug, track := track, team := team,
            urlParam := urlParamFor uuid }
    ∧ download.buildQuery
        { params := { slug := slug, uuid := uuid, token := tok,
                      apibaseurl := cfg.apibaseurl, workspace := ws,
                      track := track, team := team,
                      fromExercise := fe, fromFlags := ff }
          payload := pay }
      = flatBuildQuery
          { uuid := uuid, slug := slug, track := track, team := team,
            urlParam := urlParamFor uuid } := by
  rcases h with ⟨hs, hu⟩ | ⟨hs, hu⟩ <;>
    simp [download.requestURL, flatRequestURL, urlParamFor,
      download.buildQuery, flatBuildQuery, hs, hu]

/-- C2 witness: the equivalence at a concrete parameter set (slug `"hello"`,
empty uuid). -/
theorem C2_pipelines_equivalent_witness :
    download.requestURL
        { params := { slug := "hello", uuid := "", token := "tok",
                      apibaseurl := "https://api.example.com/v1", workspace := "/ws",
                      track := "go", team := "", fromExercise := false, fromFlags := true }
          payload := payloadEx }
      = flatRequestURL
          { token := "tok", apibaseurl := "https://api.example.com/v1", workspace := "/ws" }
          { uuid := "", slug := "hello", track := "go", team := "",
            urlParam := urlParamFor "" }
    ∧ download.buildQuery
        { params := { slug := "hello", uuid := "", token := "tok",
                      apibaseurl := "https://api.example.com/v1", workspace := "/ws",
                      track := "go", team := "", fromExercise := false, fromFlags := true }
          payload := payloadEx }
      = flatBuildQuery
          { uuid := "", slug := "hello", track := "go", team := "",
            urlParam := urlParamFor "" } :=
  C2_pipelines_equivalent
    { token := "tok", apibaseurl := "https://api.example.com/v1", workspace := "/ws" }
    payloadEx "hello" "" "go" "" "tok" "/ws" false true
    (Or.inl ⟨by decide, rfl⟩)

/-- C3: for every downloadParams value with slug and uuid both non-empty or
both empty, validation fails with the slug-xor-uuid error (whose wording
depends on the construction path), regardless of every other field — in
particular the check runs before the user-config and track/team rules, so
its failure wins. -/
theorem C3_slug_xor_uuid_first (d : downloadParams)
    (h : (d.slug ≠ "" ∧ d.uuid ≠ "") ∨ (d.slug = "" ∧ d.uuid = "")) :
    d.validate = Except.error
      (if d.fromFlags then "need an --exercise name or a solution --uuid"
       else "need a 'slug' or a 'uuid'") := by
  have hcond : (d.slug ≠ "" ∧ d.uuid ≠ "") ∨ d.uuid = d.slug := by
    rcases h with h | ⟨h1, h2⟩
    · exact Or.inl h
    · exact Or.inr (h2.trans h1.symm)
  unfold downloadParams.validate needsSlugXorUUID
  rw [if_pos hcond]
  by_cases hf : d.fromFlags <;> simp [hf]

/-- C3 witness: params with both slug and uuid set (and a complete user
config, showing the xor error still wins) fail with the flags-path
message. -/
theorem C3_slug_xor_uuid_first_witness :
    downloadParams.validate
      { slug := "two-fer", uuid := "11111111", token := "tok",
        apibaseurl := "https://api.example.com/v1", workspace := "/ws",
        track := "go", team := "", fromExercise := false, fromFlags := true }
      = Except.error "need an --exercise name or a solution --uuid" :=
  C3_slug_xor_uuid_first
    { slug := "two-fer", uuid := "11111111", token := "tok",
      apibaseurl := "https://api.example.com/v1", workspace := "/ws",
      track := "go", team := "", fromExercise := false, fromFlags := true }
    (Or.inl ⟨by decide, by decide⟩)

/-- C4: the solution-lookup request path is `{apibaseurl}/solutions/latest`
when uuid is empty and `{apibaseurl}/solutions/{uuid}` otherwise, and the
query is empty iff slug is empty; when slug is non-empty the query keys are
`exercise_id` plus `track_id`/`team_id` exactly when track/team are set. -/
theorem C4_request_construction (d : download) :
    d.requestURL
        = d.params.apibaseurl ++ "/solutions/"
            ++ (if d.params.uuid = "" then "latest" else d.params.uuid)
    ∧ (d.buildQuery = [] ↔ d.params.slug = "")
    ∧ d.buildQuery.map Prod.fst
        = (if d.params.slug = "" then []
           else "exercise_id" ::
             ((if d.params.track ≠ "" then ["track_id"] else []) ++
              (if d.params.team ≠ "" then ["team_id"] else []))) := by
  refine ⟨?_, ?_, ?_⟩
  · by_cases hu : d.params.uuid = "" <;> simp [download.requestURL, hu]
  · by_cases hs : d.params.slug = "" <;> simp [download.buildQuery, hs]
  · by_cases hs : d.params.slug = "" <;>
      by_cases ht : d.params.track = "" <;>
        by_cases hm : d.params.team = "" <;>
          simp [download.buildQuery, hs, ht, hm]

/-- An append whose middle part is non-empty is non-empty. -/
theorem append3_ne_empty (a b c : String) (hb : b ≠ "") : a ++ b ++ c ≠ "" := by
  intro h
  apply hb
  have h2 := congrArg String.length h
  simp only [String.length_append] at h2
  have hb0 : b.length = 0 := by
    have hz : ("" : String).length = 0 := rfl
    omega
  have hd : b.data.length = 0 := by rw [String.length_data]; exact hb0
  exact String.ext (List.length_eq_zero.mp hd)

/-- C5: the destination root is the workspace, with `teams/{team slug}`
appended when the solution's team slug is non-empty and `users/{handle}`
appended when the solution does not belong to the requesting user; in
particular, for a non-empty team slug and a foreign user both segments
appear, in that order. -/
theorem C5_solution_root (d : download)
    (hw : d.params.workspace ≠ "")
    (hh : d.payload.solution.user.isRequester = false →
          d.payload.solution.user.handle ≠ "") :
    d.solutionRoot =
      (if d.payload.solution.user.isRequester then
        (if d.payload.solution.team.slug ≠ ""
         then d.params.workspace ++ "/teams/" ++ d.payload.solution.team.slug
         else d.params.workspace)
       else
        (if d.payload.solution.team.slug ≠ ""
         then d.params.workspace ++ "/teams/" ++ d.payload.solution.team.slug
         else d.params.workspace) ++ "/users/" ++ d.payload.solution.user.handle) := by
  unfold download.solutionRoot download.isTeamSolution download.solutionBelongsToOtherUser
  by_cases ht : d.payload.solution.team.slug = ""
  · by_cases hr : d.payload.solution.user.isRequester
    · simp [ht, hr]
    · have hrf : d.payload.solution.user.isRequester = false := by
        revert hr; cases d.payload.solution.user.isRequester <;> simp
      have hh' := hh hrf
      simp only [ht, hrf, ne_eq, not_true_eq_false, decide_False, Bool.false_eq_true,
        if_false, ite_false, ite_true]
      rw [goJoin3_eq _ _ _ hw (by decide) hh']
      simp [String.append_assoc]
  · by_cases hr : d.payload.solution.user.isRequester
    · simp only [ht, hr, ne_eq, not_false_eq_true, if_true, Bool.not_true,
        Bool.false_eq_true, if_false, ite_true, ite_false]
      rw [goJoin3_eq _ _ _ hw (by decide) ht]
      simp [String.append_assoc]
    · have hrf : d.payload.solution.user.isRequester = false := by
        revert hr; cases d.payload.solution.user.isRequester <;> simp
      have hh' := hh hrf
      simp only [ht, hrf, ne_eq, not_false_eq_true, decide_True, Bool.not_false,
        Bool.false_eq_true, if_false, if_true, ite_true, ite_false]
      rw [goJoin3_eq _ _ _ hw (by decide) ht]
      rw [goJoin3_eq _ _ _
        (append3_ne_empty ((d.params.workspace ++ "/") ++ "teams") "/"
          d.payload.solution.team.slug (by decide)) (by decide) hh']
      simp [String.append_assoc]

/-- C5 witness: for team slug `"acme"`, a non-requesting user `"bob"` and
workspace `"workspace"`, the destination root is
`workspace/teams/acme/users/bob`. -/
theorem C5_solution_root_witness :
    download.solutionRoot
      { params := { slug := "exercise", uuid := "", token := "tok",
                    apibaseurl := "https://api.example.com/v1", workspace := "workspace",
                    track := "go", team := "", fromExercise := false, fromFlags := true }
        payload :=
          { solution :=
              { id := "sid42", url := "", team := { name := "Acme", slug := "acme" },
                user := { handle := "bob", isRequester := false },
                exercise :=
                  { id := "exercise", instructionsURL := "", autoApprove := false,
                    track := { id := "go", language := "Go" } },
                fileDownloadBaseURL := "", files := [] }
            error := { type := "", message := "", possibleTrackIDs := [] } } }
      = "workspace/teams/acme/users/bob" := by
  rw [C5_solution_root _ (by decide) (fun _ => by decide)]
  decide

/-- Example params used to instantiate witnesses. -/
def paramsEx : downloadParams :=
  { slug := "exercise", uuid := "", token := "tok",
    apibaseurl := "https://api.example.com/v1", workspace := "/ws",
    track := "go", team := "", fromExercise := false, fromFlags := true }

/-- Example payload whose solution ID is empty (violating the 200-status
invariant). -/
def payloadNoID : downloadPayload :=
  { payloadEx with solution := { payloadEx.solution with id := "" } }

/-- C6: after an HTTP 200 response, the download is accepted exactly when the
solution ID is non-empty and the payload carries no error message; when the
ID is empty or a message is present, an error is still returned. -/
theorem C6_status200_validation (p : downloadParams) (payload : downloadPayload) :
    (resolveStatus p payload 200 = Except.ok { params := p, payload := payload }
      ↔ (payload.solution.id ≠ "" ∧ payload.error.message = ""))
    ∧ ((payload.solution.id = "" ∨ payload.error.message ≠ "") →
        ∃ e, resolveStatus p payload 200 = Except.error e) := by
  constructor
  · constructor
    · intro h
      by_cases hid : payload.solution.id = ""
      · simp [resolveStatus, downloadPayload.validate, hid] at h
      · by_cases hmsg : payload.error.message = ""
        · exact ⟨hid, hmsg⟩
        · simp [resolveStatus, downloadPayload.validate, hid, hmsg] at h
    · rintro ⟨hid, hmsg⟩
      simp [resolveStatus, downloadPayload.validate, hid, hmsg]
  · intro h
    by_cases hid : payload.solution.id = ""
    · exact ⟨"download missing an ID",
        by simp [resolveStatus, downloadPayload.validate, hid]⟩
    · rcases h with h | hmsg
      · exact absurd h hid
      · exact ⟨payload.error.message,
          by simp [resolveStatus, downloadPayload.validate, hid, hmsg]⟩

/-- C6 witness: a 200 response whose payload has an empty solution ID is
rejected with an error. -/
theorem C6_status200_validation_witness :
    ∃ e, resolveStatus paramsEx payloadNoID 200 = Except.error e :=
  (C6_status200_validation paramsEx payloadNoID).2 (Or.inl rfl)

/-- A download marked as originating from an existing local exercise, with a
non-empty file list. -/
def dFromExercise : download :=
  { params := { paramsEx with fromExercise := true }
    payload :=
      { payloadEx with
          solution := { payloadEx.solution with files := ["main.go", "sub/dir.go"] } } }

/-- A per-file oracle whose every response succeeds with content. -/
def netAllOk : String → fileOracle := fun _ =>
  { parsedURLOk := Except.ok ()
    clientResult := Except.ok ()
    requestResult := Except.ok ()
    doResult := Except.ok { statusCode := 200, contentLength := "8", body := "contents" } }

/-- C7: when the params originate from a local exercise, the materializer
returns the refusal error and writes no files, whatever the file list and
whatever the per-file responses would have been. -/
theorem C7_from_exercise_refused (d : download) (net : String → fileOracle)
    (h : d.params.fromExercise = true) :
    writeSolutionFiles d net
      = ([], some "existing exercise files should not be overwritten") := by
  simp [writeSolutionFiles, h]

/-- C7 witness: the refusal at a concrete download whose file list is
non-empty and whose per-file responses would all have succeeded. -/
theorem C7_from_exercise_refused_witness :
    writeSolutionFiles dFromExercise netAllOk
      = ([], some "existing exercise files should not be overwritten") :=
  C7_from_exercise_refused dFromExercise netAllOk rfl

/-- C8: a per-file response with status ≠ 200 or with a `Content-Length`
header equal to `"0"` causes exactly that file to be skipped: the loop over
the remaining files proceeds as if the file were absent — nothing is written
for it and no error is produced. -/
theorem C8_skip_failed_file (d : download) (net : String → fileOracle)
    (f : String) (rest : List String) (res : fileResponse)
    (hurl : (net f).parsedURLOk = Except.ok ())
    (hreq : (net f).requestResult = Except.ok ())
    (hdo : (net f).doResult = Except.ok res)
    (hskip : res.statusCode ≠ 200 ∨ res.contentLength = "0") :
    writeLoop d net (f :: rest) = writeLoop d net rest := by
  have hrf : requestFile (net f) = Except.ok none := by
    rcases hskip with hs | hc
    · simp [requestFile, hurl, hreq, hdo, hs]
    · by_cases hs : res.statusCode = 200
      · simp [requestFile, hurl, hreq, hdo, hs, hc]
      · simp [requestFile, hurl, hreq, hdo, hs]
  simp [writeLoop, hrf]

/-- A per-file oracle answering 404 for every file. -/
def net404 : String → fileOracle := fun _ =>
  { parsedURLOk := Except.ok ()
    clientResult := Except.ok ()
    requestResult := Except.ok ()
    doResult := Except.ok { statusCode := 404, contentLength := "", body := "" } }

/-- A download not originating from a local exercise. -/
def dEx : download := { params := paramsEx, payload := payloadEx }

/-- C8 witness: with a 404 response for `"missing.txt"`, the loop over
`["missing.txt", "other.txt"]` equals the loop over `["other.txt"]` alone. -/
theorem C8_skip_failed_file_witness :
    writeLoop dEx net404 ["missing.txt", "other.txt"]
      = writeLoop dEx net404 ["other.txt"] :=
  C8_skip_failed_file dEx net404 "missing.txt" ["other.txt"]
    { statusCode := 404, contentLength := "", body := "" }
    rfl rfl rfl (Or.inl (by decide))

/-- C9: when parameter validation fails, newDownload returns that validation
error with an empty collaborator trace: no HTTP client is constructed, no
request is built and none is performed. -/
theorem C9_validation_before_network (p : downloadParams) (net : payloadOracle)
    (e : String) (h : p.validate = Except.error e) :
    newDownload p net = (Except.error e, []) := by
  simp [newDownload, h]

/-- Params violating the slug-xor-uuid rule (both empty). -/
def paramsEmptyIds : downloadParams :=
  { paramsEx with slug := "", uuid := "", fromFlags := false }

/-- A payload oracle whose network calls would all succeed. -/
def netOkPayload : payloadOracle :=
  { clientResult := Except.ok ()
    requestResult := Except.ok ()
    doResult := Except.ok { statusCode := 200, decoded := Except.ok payloadEx } }

/-- C9 witness: invalid params (slug and uuid both empty) produce the
validation error and an empty network trace, even though every network call
would have succeeded. -/
theorem C9_validation_before_network_witness :
    newDownload paramsEmptyIds netOkPayload
      = (Except.error "need a 'slug' or a 'uuid'", []) :=
  C9_validation_before_network paramsEmptyIds netOkPayload _ rfl

/-- C10: requestFile's outcome is entirely independent of the result of
client construction — the api.NewClient error is bound to `err` and
immediately overwritten unchecked — and in particular a failed client
construction with an otherwise successful exchange still yields the
response. -/
theorem C10_client_error_discarded (o : fileOracle) (e : String) :
    requestFile { o with clientResult := Except.error e }
      = requestFile { o with clientResult := Except.ok () }
    ∧ requestFile
        { parsedURLOk := Except.ok ()
          clientResult := Except.error e
          requestResult := Except.ok ()
          doResult := Except.ok { statusCode := 200, contentLength := "10", body := "x" } }
      = Except.ok (some { statusCode := 200, contentLength := "10", body := "x" }) :=
  ⟨rfl, rfl⟩

end Exercism
